import Mathlib

/-!
Shallow embedding of the Python-M09 repository: three pydantic-style
validated-record schemas (SpaceStation in ex0, AlienContact in ex1,
SpaceMission with nested CrewMember in ex2).  Each schema declares
per-field range/length constraints; pydantic checks those first, in
declaration order, and only when every field passes does the
model_validator (mode "after") hook run, which is an elif-chain of
cross-field rules raising the first failing rule's message.

Embedding choices: Python floats become rationals (the programs only
compare them against small decimal bounds), datetimes become abstract
Nat timestamps, Python ints become Int, and fallible construction
returns Except.  Inputs are separate structures in which an Option
field set to none means the field was omitted so its declared default
applies.
-/

/-- Outcome of a failed construction: a field-constraint violation naming
the offending field, or a cross-field rule violation carrying the rule
message.  Pydantic runs the after-validator only once all field
constraints pass, so a field violation always wins. -/
inductive ConstructError where
  | fieldConstraintViolation (field : String) : ConstructError
  | crossFieldViolation (message : String) : ConstructError
deriving DecidableEq

/-! ### ex0: space_station.py -/

/-- Record type of src/ex0/space_station.py (class SpaceStation). -/
structure SpaceStation where
  station_id : String
  name : String
  crew_size : Int
  power_level : ℚ
  oxygen_level : ℚ
  last_maintenance : Nat
  is_operational : Bool
  notes : Option String
deriving DecidableEq

/-- Caller-supplied raw field values for SpaceStation; none in an Option
field means the field was omitted and its declared default applies. -/
structure SpaceStationInput where
  station_id : String
  name : String
  crew_size : Int
  power_level : ℚ
  oxygen_level : ℚ
  last_maintenance : Option Nat
  is_operational : Option Bool
  notes : Option String
deriving DecidableEq

/-- Constraint of the optional notes field: max_length 200 applies only
when a value is present (None always passes). -/
def SpaceStation.notesOK : Option String → Bool
  | none => true
  | some s => s.length ≤ 200

/-- Field-constraint layer for SpaceStation, one Field(...) declaration at
a time in declaration order; returns the first violated field's name. -/
def SpaceStation.fieldCheck (i : SpaceStationInput) : Option String :=
  if ¬ (3 ≤ i.station_id.length ∧ i.station_id.length ≤ 10) then some "station_id"
  else if ¬ (1 ≤ i.name.length ∧ i.name.length ≤ 50) then some "name"
  else if ¬ (1 ≤ i.crew_size ∧ i.crew_size ≤ 20) then some "crew_size"
  else if ¬ (0 ≤ i.power_level ∧ i.power_level ≤ 100) then some "power_level"
  else if ¬ (0 ≤ i.oxygen_level ∧ i.oxygen_level ≤ 100) then some "oxygen_level"
  else if ¬ SpaceStation.notesOK i.notes then some "notes"
  else none

/-- Assemble a SpaceStation from raw inputs, applying the declared
defaults (last_maintenance defaults to now, is_operational to true,
notes to None). -/
def SpaceStation.assemble (now : Nat) (i : SpaceStationInput) : SpaceStation :=
  { station_id := i.station_id
    name := i.name
    crew_size := i.crew_size
    power_level := i.power_level
    oxygen_level := i.oxygen_level
    last_maintenance := i.last_maintenance.getD now
    is_operational := i.is_operational.getD true
    notes := i.notes }

/-- Construction of a SpaceStation: field constraints first; the schema
has no cross-field rules. -/
def SpaceStation.construct (now : Nat) (i : SpaceStationInput) :
    Except ConstructError SpaceStation :=
  match SpaceStation.fieldCheck i with
  | some f => .error (.fieldConstraintViolation f)
  | none => .ok (SpaceStation.assemble now i)

/-- The Status line printed by display_station in src/ex0/space_station.py:
the string literal is Non-prefixed exactly when is_operational is true. -/
def display_station_status (station : SpaceStation) : String :=
  "Status: " ++ (if station.is_operational then "Non " else "") ++ "Operational"

/-- All declared field constraints of the SpaceStation schema, as a
predicate on an assembled record. -/
abbrev SpaceStation.FieldsOK (s : SpaceStation) : Prop :=
  (3 ≤ s.station_id.length ∧ s.station_id.length ≤ 10)
  ∧ (1 ≤ s.name.length ∧ s.name.length ≤ 50)
  ∧ (1 ≤ s.crew_size ∧ s.crew_size ≤ 20)
  ∧ (0 ≤ s.power_level ∧ s.power_level ≤ 100)
  ∧ (0 ≤ s.oxygen_level ∧ s.oxygen_level ≤ 100)
  ∧ SpaceStation.notesOK s.notes = true

/-- All declared field constraints of the SpaceStation schema, as a
predicate on the raw input values. -/
abbrev SpaceStationInput.Valid (i : SpaceStationInput) : Prop :=
  (3 ≤ i.station_id.length ∧ i.station_id.length ≤ 10)
  ∧ (1 ≤ i.name.length ∧ i.name.length ≤ 50)
  ∧ (1 ≤ i.crew_size ∧ i.crew_size ≤ 20)
  ∧ (0 ≤ i.power_level ∧ i.power_level ≤ 100)
  ∧ (0 ≤ i.oxygen_level ∧ i.oxygen_level ≤ 100)
  ∧ SpaceStation.notesOK i.notes = true

/-! ### ex1: alien_contact.py -/

/-- Enum ContactType of src/ex1/alien_contact.py. -/
inductive ContactType where
  | radio
  | visual
  | physical
  | telepathic
deriving DecidableEq

/-- Record type of src/ex1/alien_contact.py (class AlienContact). -/
structure AlienContact where
  contact_id : String
  timestamp : Nat
  location : String
  contact_type : ContactType
  signal_strength : ℚ
  duration_minutes : Int
  witness_count : Int
  message_received : Option String
  is_verified : Bool
deriving DecidableEq

/-- Caller-supplied raw field values for AlienContact. -/
structure AlienContactInput where
  contact_id : String
  timestamp : Option Nat
  location : String
  contact_type : ContactType
  signal_strength : ℚ
  duration_minutes : Int
  witness_count : Int
  message_received : Option String
  is_verified : Option Bool
deriving DecidableEq

/-- model_validator check_model of AlienContact: the ordered elif-chain of
cross-field rules, returning the first failing rule's message (the source
raises ValueError with that message). -/
def AlienContact.check_model (c : AlienContact) : Option String :=
  if c.contact_id.length < 2 ∨ c.contact_id.take 2 ≠ "AC" then
    some "Contact ID must start with \x27AC\x27 (Alien Contact)"
  else if c.contact_type = ContactType.physical ∧ ¬ c.is_verified then
    some "physical contact reports must be verified"
  else if c.contact_type = ContactType.telepathic ∧ c.witness_count < 3 then
    some "telepathic contact requires at least 3 witnesses"
  else if c.signal_strength > 7 ∧ c.message_received = none then
    some "Strong signals (> 7.0) should include received messages"
  else none

/-- Field-constraint layer for AlienContact in declaration order. -/
def AlienContact.fieldCheck (i : AlienContactInput) : Option String :=
  if ¬ (5 ≤ i.contact_id.length ∧ i.contact_id.length ≤ 15) then some "contact_id"
  else if ¬ (3 ≤ i.location.length ∧ i.location.length ≤ 100) then some "location"
  else if ¬ (0 ≤ i.signal_strength ∧ i.signal_strength ≤ 10) then some "signal_strength"
  else if ¬ (1 ≤ i.duration_minutes ∧ i.duration_minutes ≤ 1440) then some "duration_minutes"
  else if ¬ (1 ≤ i.witness_count ∧ i.witness_count ≤ 100) then some "witness_count"
  else none

/-- Assemble an AlienContact from raw inputs, applying the declared
defaults (timestamp to now, message_received to None, is_verified to
false). -/
def AlienContact.assemble (now : Nat) (i : AlienContactInput) : AlienContact :=
  { contact_id := i.contact_id
    timestamp := i.timestamp.getD now
    location := i.location
    contact_type := i.contact_type
    signal_strength := i.signal_strength
    duration_minutes := i.duration_minutes
    witness_count := i.witness_count
    message_received := i.message_received
    is_verified := i.is_verified.getD false }

/-- Construction of an AlienContact: field constraints in declaration
order, then check_model on the assembled record. -/
def AlienContact.construct (now : Nat) (i : AlienContactInput) :
    Except ConstructError AlienContact :=
  match AlienContact.fieldCheck i with
  | some f => .error (.fieldConstraintViolation f)
  | none =>
    let c := AlienContact.assemble now i
    match c.check_model with
    | some msg => .error (.crossFieldViolation msg)
    | none => .ok c

/-- convert_duration of src/ex1/alien_contact.py: format a minute count
as an hour-and-minutes phrase.  Python floor division and modulus on a
positive divisor coincide with Int euclidean division, which is what the
slash and percent notation on Int denote. -/
def convert_duration (duration : Int) : String :=
  let res := ""
  let res :=
    if duration ≥ 60 then
      let plurial := if duration ≥ 120 then "s" else ""
      let r := res ++ toString (duration / 60) ++ " hour" ++ plurial
      if duration % 60 ≠ 0 then r ++ " " else r
    else res
  if duration % 60 = 0 then res
  else
    let plurial := if duration % 60 ≠ 1 then "s" else ""
    res ++ toString (duration % 60) ++ " minute" ++ plurial

/-- All declared field constraints of the AlienContact schema, on an
assembled record.  contact_type and is_verified are enum/bool typed,
timestamp and message_received carry no bound. -/
abbrev AlienContact.FieldsOK (c : AlienContact) : Prop :=
  (5 ≤ c.contact_id.length ∧ c.contact_id.length ≤ 15)
  ∧ (3 ≤ c.location.length ∧ c.location.length ≤ 100)
  ∧ (0 ≤ c.signal_strength ∧ c.signal_strength ≤ 10)
  ∧ (1 ≤ c.duration_minutes ∧ c.duration_minutes ≤ 1440)
  ∧ (1 ≤ c.witness_count ∧ c.witness_count ≤ 100)

/-- All declared field constraints of the AlienContact schema, on the
raw input values. -/
abbrev AlienContactInput.Valid (i : AlienContactInput) : Prop :=
  (5 ≤ i.contact_id.length ∧ i.contact_id.length ≤ 15)
  ∧ (3 ≤ i.location.length ∧ i.location.length ≤ 100)
  ∧ (0 ≤ i.signal_strength ∧ i.signal_strength ≤ 10)
  ∧ (1 ≤ i.duration_minutes ∧ i.duration_minutes ≤ 1440)
  ∧ (1 ≤ i.witness_count ∧ i.witness_count ≤ 100)

/-- The four cross-field rules of the AlienContact schema, stated
positively (all satisfied). -/
abbrev AlienContact.RulesOK (c : AlienContact) : Prop :=
  (2 ≤ c.contact_id.length ∧ c.contact_id.take 2 = "AC")
  ∧ (c.contact_type = ContactType.physical → c.is_verified = true)
  ∧ (c.contact_type = ContactType.telepathic → 3 ≤ c.witness_count)
  ∧ (7 < c.signal_strength → c.message_received ≠ none)

/-- Failure condition of the k-th cross-field rule of AlienContact, in
the order of the check_model chain. -/
abbrev AlienContact.ruleFails (c : AlienContact) : Fin 4 → Prop
  | 0 => c.contact_id.length < 2 ∨ c.contact_id.take 2 ≠ "AC"
  | 1 => c.contact_type = ContactType.physical ∧ ¬ c.is_verified
  | 2 => c.contact_type = ContactType.telepathic ∧ c.witness_count < 3
  | 3 => c.signal_strength > 7 ∧ c.message_received = none

/-- Fixed message of the k-th cross-field rule of AlienContact. -/
def AlienContact.ruleMsg : Fin 4 → String
  | 0 => "Contact ID must start with \x27AC\x27 (Alien Contact)"
  | 1 => "physical contact reports must be verified"
  | 2 => "telepathic contact requires at least 3 witnesses"
  | 3 => "Strong signals (> 7.0) should include received messages"

/-- Fields of AlienContact that carry a declared range constraint. -/
inductive AlienContactField where
  | contact_id
  | location
  | signal_strength
  | duration_minutes
  | witness_count
deriving DecidableEq

/-- Name of a constrained AlienContact field. -/
def AlienContactField.fieldName : AlienContactField → String
  | .contact_id => "contact_id"
  | .location => "location"
  | .signal_strength => "signal_strength"
  | .duration_minutes => "duration_minutes"
  | .witness_count => "witness_count"

/-- Declared constraint of one AlienContact field on an input. -/
abbrev AlienContactInput.fieldOK (i : AlienContactInput) : AlienContactField → Prop
  | .contact_id => 5 ≤ i.contact_id.length ∧ i.contact_id.length ≤ 15
  | .location => 3 ≤ i.location.length ∧ i.location.length ≤ 100
  | .signal_strength => 0 ≤ i.signal_strength ∧ i.signal_strength ≤ 10
  | .duration_minutes => 1 ≤ i.duration_minutes ∧ i.duration_minutes ≤ 1440
  | .witness_count => 1 ≤ i.witness_count ∧ i.witness_count ≤ 100

/-! ### ex2: space_crew.py -/

/-- Enum Rank of src/ex2/space_crew.py. -/
inductive Rank where
  | cadet
  | officer
  | lieutenant
  | captain
  | commander
deriving DecidableEq

/-- Record type of src/ex2/space_crew.py (class CrewMember). -/
structure CrewMember where
  member_id : String
  name : String
  rank : Rank
  age : Int
  specialization : String
  years_experience : Int
  is_active : Bool
deriving DecidableEq

/-- Caller-supplied raw field values for CrewMember. -/
structure CrewMemberInput where
  member_id : String
  name : String
  rank : Rank
  age : Int
  specialization : String
  years_experience : Int
  is_active : Option Bool
deriving DecidableEq

/-- Field-constraint layer for CrewMember in declaration order. -/
def CrewMember.fieldCheck (i : CrewMemberInput) : Option String :=
  if ¬ (3 ≤ i.member_id.length ∧ i.member_id.length ≤ 10) then some "member_id"
  else if ¬ (2 ≤ i.name.length ∧ i.name.length ≤ 50) then some "name"
  else if ¬ (18 ≤ i.age ∧ i.age ≤ 80) then some "age"
  else if ¬ (3 ≤ i.specialization.length ∧ i.specialization.length ≤ 30) then some "specialization"
  else if ¬ (0 ≤ i.years_experience ∧ i.years_experience ≤ 50) then some "years_experience"
  else none

/-- Assemble a CrewMember from raw inputs (is_active defaults to true). -/
def CrewMember.assemble (i : CrewMemberInput) : CrewMember :=
  { member_id := i.member_id
    name := i.name
    rank := i.rank
    age := i.age
    specialization := i.specialization
    years_experience := i.years_experience
    is_active := i.is_active.getD true }

/-- Construction of a CrewMember: field constraints only, the schema has
no cross-field rules. -/
def CrewMember.construct (i : CrewMemberInput) : Except ConstructError CrewMember :=
  match CrewMember.fieldCheck i with
  | some f => .error (.fieldConstraintViolation f)
  | none => .ok (CrewMember.assemble i)

/-- All declared field constraints of the CrewMember schema, on an
assembled record. -/
abbrev CrewMember.FieldsOK (p : CrewMember) : Prop :=
  (3 ≤ p.member_id.length ∧ p.member_id.length ≤ 10)
  ∧ (2 ≤ p.name.length ∧ p.name.length ≤ 50)
  ∧ (18 ≤ p.age ∧ p.age ≤ 80)
  ∧ (3 ≤ p.specialization.length ∧ p.specialization.length ≤ 30)
  ∧ (0 ≤ p.years_experience ∧ p.years_experience ≤ 50)

/-- Loop of not_min_rank: walk the crew counting commanders and captains
(the Python for-loop with its if/elif). -/
def not_min_rank_loop : List CrewMember → Int × Int → Int × Int
  | [], acc => acc
  | person :: rest, (nb_commander, nb_captain) =>
    if person.rank = Rank.commander then
      not_min_rank_loop rest (nb_commander + 1, nb_captain)
    else if person.rank = Rank.captain then
      not_min_rank_loop rest (nb_commander, nb_captain + 1)
    else
      not_min_rank_loop rest (nb_commander, nb_captain)

/-- not_min_rank of src/ex2/space_crew.py: true when the crew has no
Commander and no Captain. -/
def not_min_rank (crew : List CrewMember) : Bool :=
  let counts := not_min_rank_loop crew (0, 0)
  decide (counts.1 = 0 ∧ counts.2 = 0)

/-- active_crew of src/ex2/space_crew.py: the for-loop returning False at
the first inactive member. -/
def active_crew : List CrewMember → Bool
  | [] => true
  | person :: rest => if ¬ person.is_active then false else active_crew rest

/-- Loop of experience_crew: count members with years_experience > 5. -/
def experience_crew_loop : List CrewMember → Int → Int
  | [], nb => nb
  | person :: rest, nb =>
    if person.years_experience > 5 then experience_crew_loop rest (nb + 1)
    else experience_crew_loop rest nb

/-- experience_crew of src/ex2/space_crew.py: the count of experienced
members is compared against len(crew) / 2 under Python float division,
modelled exactly by rational division. -/
def experience_crew (crew : List CrewMember) : Bool :=
  let nb_experience := experience_crew_loop crew 0
  decide ((nb_experience : ℚ) ≥ (crew.length : ℚ) / 2)

/-- Record type of src/ex2/space_crew.py (class SpaceMission); the field
lauch_date keeps the source's spelling. -/
structure SpaceMission where
  mission_id : String
  mission_name : String
  destination : String
  lauch_date : Nat
  duration_days : Int
  crew : List CrewMember
  mission_status : String
  budget_millions : ℚ
deriving DecidableEq

/-- Caller-supplied raw field values for SpaceMission. -/
structure SpaceMissionInput where
  mission_id : String
  mission_name : String
  destination : String
  lauch_date : Option Nat
  duration_days : Int
  crew : List CrewMember
  mission_status : Option String
  budget_millions : ℚ
deriving DecidableEq

/-- model_validator check_model of SpaceMission: the ordered elif-chain
of cross-field rules, returning the first failing rule's message. -/
def SpaceMission.check_model (m : SpaceMission) : Option String :=
  if m.mission_id.length = 0 ∨ m.mission_id.take 1 ≠ "M" then
    some "Mission ID must start with \x27M\x27"
  else if not_min_rank m.crew then
    some "Must have at least one Commander or Captain"
  else if m.duration_days > 365 ∧ ¬ experience_crew m.crew then
    some ("Long missions (> 365 days) " ++ "need 50% experienced crew (5+ years)")
  else if ¬ active_crew m.crew then
    some "All crew members must be active"
  else none

/-- Field-constraint layer for SpaceMission in declaration order (crew is
a list field with min_length 1 and max_length 12; mission_status carries
no constraint). -/
def SpaceMission.fieldCheck (i : SpaceMissionInput) : Option String :=
  if ¬ (5 ≤ i.mission_id.length ∧ i.mission_id.length ≤ 15) then some "mission_id"
  else if ¬ (3 ≤ i.mission_name.length ∧ i.mission_name.length ≤ 100) then some "mission_name"
  else if ¬ (3 ≤ i.destination.length ∧ i.destination.length ≤ 50) then some "destination"
  else if ¬ (1 ≤ i.duration_days ∧ i.duration_days ≤ 3650) then some "duration_days"
  else if ¬ (1 ≤ i.crew.length ∧ i.crew.length ≤ 12) then some "crew"
  else if ¬ (1 ≤ i.budget_millions ∧ i.budget_millions ≤ 10000) then some "budget_millions"
  else none

/-- Assemble a SpaceMission from raw inputs (lauch_date defaults to now,
mission_status to the string planned). -/
def SpaceMission.assemble (now : Nat) (i : SpaceMissionInput) : SpaceMission :=
  { mission_id := i.mission_id
    mission_name := i.mission_name
    destination := i.destination
    lauch_date := i.lauch_date.getD now
    duration_days := i.duration_days
    crew := i.crew
    mission_status := i.mission_status.getD "planned"
    budget_millions := i.budget_millions }

/-- Construction of a SpaceMission: field constraints in declaration
order, then check_model on the assembled record. -/
def SpaceMission.construct (now : Nat) (i : SpaceMissionInput) :
    Except ConstructError SpaceMission :=
  match SpaceMission.fieldCheck i with
  | some f => .error (.fieldConstraintViolation f)
  | none =>
    let m := SpaceMission.assemble now i
    match m.check_model with
    | some msg => .error (.crossFieldViolation msg)
    | none => .ok m

/-- All declared field constraints of the SpaceMission schema, on an
assembled record. -/
abbrev SpaceMission.FieldsOK (m : SpaceMission) : Prop :=
  (5 ≤ m.mission_id.length ∧ m.mission_id.length ≤ 15)
  ∧ (3 ≤ m.mission_name.length ∧ m.mission_name.length ≤ 100)
  ∧ (3 ≤ m.destination.length ∧ m.destination.length ≤ 50)
  ∧ (1 ≤ m.duration_days ∧ m.duration_days ≤ 3650)
  ∧ (1 ≤ m.crew.length ∧ m.crew.length ≤ 12)
  ∧ (1 ≤ m.budget_millions ∧ m.budget_millions ≤ 10000)

/-- All declared field constraints of the SpaceMission schema, on the raw
input values. -/
abbrev SpaceMissionInput.Valid (i : SpaceMissionInput) : Prop :=
  (5 ≤ i.mission_id.length ∧ i.mission_id.length ≤ 15)
  ∧ (3 ≤ i.mission_name.length ∧ i.mission_name.length ≤ 100)
  ∧ (3 ≤ i.destination.length ∧ i.destination.length ≤ 50)
  ∧ (1 ≤ i.duration_days ∧ i.duration_days ≤ 3650)
  ∧ (1 ≤ i.crew.length ∧ i.crew.length ≤ 12)
  ∧ (1 ≤ i.budget_millions ∧ i.budget_millions ≤ 10000)

/-- The four cross-field rules of the SpaceMission schema, stated
positively (all satisfied). -/
abbrev SpaceMission.RulesOK (m : SpaceMission) : Prop :=
  (m.mission_id.length ≠ 0 ∧ m.mission_id.take 1 = "M")
  ∧ not_min_rank m.crew = false
  ∧ (365 < m.duration_days → experience_crew m.crew = true)
  ∧ active_crew m.crew = true

/-- Failure condition of the k-th cross-field rule of SpaceMission, in
the order of the check_model chain. -/
abbrev SpaceMission.ruleFails (m : SpaceMission) : Fin 4 → Prop
  | 0 => m.mission_id.length = 0 ∨ m.mission_id.take 1 ≠ "M"
  | 1 => not_min_rank m.crew = true
  | 2 => m.duration_days > 365 ∧ ¬ experience_crew m.crew
  | 3 => ¬ active_crew m.crew

/-- Fixed message of the k-th cross-field rule of SpaceMission. -/
def SpaceMission.ruleMsg : Fin 4 → String
  | 0 => "Mission ID must start with \x27M\x27"
  | 1 => "Must have at least one Commander or Captain"
  | 2 => "Long missions (> 365 days) need 50% experienced crew (5+ years)"
  | 3 => "All crew members must be active"

/-- Fields of SpaceMission that carry a declared range constraint. -/
inductive SpaceMissionField where
  | mission_id
  | mission_name
  | destination
  | duration_days
  | crew
  | budget_millions
deriving DecidableEq

/-- Name of a constrained SpaceMission field. -/
def SpaceMissionField.fieldName : SpaceMissionField → String
  | .mission_id => "mission_id"
  | .mission_name => "mission_name"
  | .destination => "destination"
  | .duration_days => "duration_days"
  | .crew => "crew"
  | .budget_millions => "budget_millions"

/-- Declared constraint of one SpaceMission field on an input. -/
abbrev SpaceMissionInput.fieldOK (i : SpaceMissionInput) : SpaceMissionField → Prop
  | .mission_id => 5 ≤ i.mission_id.length ∧ i.mission_id.length ≤ 15
  | .mission_name => 3 ≤ i.mission_name.length ∧ i.mission_name.length ≤ 100
  | .destination => 3 ≤ i.destination.length ∧ i.destination.length ≤ 50
  | .duration_days => 1 ≤ i.duration_days ∧ i.duration_days ≤ 3650
  | .crew => 1 ≤ i.crew.length ∧ i.crew.length ≤ 12
  | .budget_millions => 1 ≤ i.budget_millions ∧ i.budget_millions ≤ 10000

/-- All declared field constraints of the CrewMember schema, on the raw
input values. -/
abbrev CrewMemberInput.Valid (i : CrewMemberInput) : Prop :=
  (3 ≤ i.member_id.length ∧ i.member_id.length ≤ 10)
  ∧ (2 ≤ i.name.length ∧ i.name.length ≤ 50)
  ∧ (18 ≤ i.age ∧ i.age ≤ 80)
  ∧ (3 ≤ i.specialization.length ∧ i.specialization.length ≤ 30)
  ∧ (0 ≤ i.years_experience ∧ i.years_experience ≤ 50)

/-- Spec-side restatement of the duration phrase: the hour phrase appears
exactly when duration is at least 60, the minute phrase exactly when
duration is not a multiple of 60, and each unit word is singular exactly
when its count is 1. -/
def duration_phrase_from_spec (d : Int) : String :=
  (if 60 ≤ d then
    toString (d / 60) ++ " hour" ++ (if d / 60 = 1 then "" else "s")
      ++ (if d % 60 ≠ 0 then " " else "")
  else "")
  ++ (if d % 60 ≠ 0 then
    toString (d % 60) ++ " minute" ++ (if d % 60 = 1 then "" else "s")
  else "")

/-! ### Concrete example data, drawn from the demonstration mains -/

/-- A fully valid SpaceStation input (ex0 main, first example). -/
def station_input_ok : SpaceStationInput :=
  { station_id := "ISS001"
    name := "International Space Station"
    crew_size := 6
    power_level := 85
    oxygen_level := 92
    last_maintenance := none
    is_operational := some true
    notes := none }

/-- A fully valid SpaceStation input whose is_operational flag is false. -/
def station_input_off : SpaceStationInput :=
  { station_id := "100SSI"
    name := "Station Space International"
    crew_size := 6
    power_level := 85
    oxygen_level := 92
    last_maintenance := none
    is_operational := some false
    notes := none }

/-- A fully valid AlienContact input (radio contact with a strong signal
and a message, as in the ex1 main). -/
def contact_input_ok : AlienContactInput :=
  { contact_id := "AC2024001"
    timestamp := none
    location := "Area 51, Nevada"
    contact_type := ContactType.radio
    signal_strength := 8
    duration_minutes := 45
    witness_count := 5
    message_received := some "Greetings from Zeta Reticuli"
    is_verified := none }

/-- An AlienContact input whose contact_id is too short (field violation)
and would also break the AC-prefix cross-field rule. -/
def contact_input_badid : AlienContactInput :=
  { contact_id := "XY"
    timestamp := none
    location := "Area 51, Nevada"
    contact_type := ContactType.radio
    signal_strength := 5
    duration_minutes := 45
    witness_count := 5
    message_received := none
    is_verified := none }

/-- An AlienContact input with valid fields where the telepathic rule is
the first failing rule and the strong-signal rule would also fail. -/
def contact_input_tele : AlienContactInput :=
  { contact_id := "AC2471PEP"
    timestamp := none
    location := "Area 42, Lyon"
    contact_type := ContactType.telepathic
    signal_strength := 8
    duration_minutes := 42
    witness_count := 1
    message_received := none
    is_verified := none }

/-- Crew with one commander; experienced members are the ones with 17 and
20 years (two of three). -/
def crew_ok : List CrewMember :=
  [ { member_id := "Person005"
      name := "Sarah Connor"
      rank := Rank.commander
      age := 37
      specialization := "Mission Command"
      years_experience := 5
      is_active := true },
    { member_id := "Person006"
      name := "John Smith"
      rank := Rank.lieutenant
      age := 63
      specialization := "Navigation"
      years_experience := 17
      is_active := true },
    { member_id := "Person007"
      name := "Alice Johnson"
      rank := Rank.officer
      age := 58
      specialization := "Engineering"
      years_experience := 20
      is_active := true } ]

/-- Crew with no commander and no captain (ex2 main, second example). -/
def crew_nocmd : List CrewMember :=
  [ { member_id := "Person005"
      name := "Sarah Connor"
      rank := Rank.cadet
      age := 37
      specialization := "Mission Command"
      years_experience := 5
      is_active := true },
    { member_id := "Person006"
      name := "John Smith"
      rank := Rank.lieutenant
      age := 63
      specialization := "Navigation"
      years_experience := 17
      is_active := true },
    { member_id := "Person007"
      name := "Alice Johnson"
      rank := Rank.officer
      age := 58
      specialization := "Engineering"
      years_experience := 21
      is_active := true } ]

/-- Crew of three with exactly one experienced member (10 years). -/
def crew_one_exp : List CrewMember :=
  [ { member_id := "Person010"
      name := "Ripley Scott"
      rank := Rank.captain
      age := 40
      specialization := "Command"
      years_experience := 10
      is_active := true },
    { member_id := "Person011"
      name := "Kane Gilbert"
      rank := Rank.officer
      age := 30
      specialization := "Science"
      years_experience := 3
      is_active := true },
    { member_id := "Person012"
      name := "Lambert Joan"
      rank := Rank.officer
      age := 29
      specialization := "Navigation"
      years_experience := 4
      is_active := true } ]

/-- A fully valid SpaceMission input (ex2 main, first example). -/
def mission_input_ok : SpaceMissionInput :=
  { mission_id := "M2024MARS"
    mission_name := "Mars Colony Establishment"
    destination := "Mars"
    lauch_date := none
    duration_days := 900
    crew := crew_ok
    mission_status := none
    budget_millions := 2500 }

/-- A SpaceMission input whose mission_id is too short (field violation). -/
def mission_input_badid : SpaceMissionInput :=
  { mission_id := "MARS"
    mission_name := "Mars Colony Establishment"
    destination := "Mars"
    lauch_date := none
    duration_days := 900
    crew := crew_ok
    mission_status := none
    budget_millions := 2500 }

/-- A SpaceMission input with valid fields whose crew holds no commander
and no captain (ex2 main, second example). -/
def mission_input_nocmd : SpaceMissionInput :=
  { mission_id := "M2026MARS"
    mission_name := "Mars Colony Establishment"
    destination := "Mars"
    lauch_date := none
    duration_days := 900
    crew := crew_nocmd
    mission_status := none
    budget_millions := 2500 }

/-- A fully valid CrewMember input with is_active omitted. -/
def member_input_ok : CrewMemberInput :=
  { member_id := "Person006"
    name := "John Smith"
    rank := Rank.lieutenant
    age := 63
    specialization := "Navigation"
    years_experience := 17
    is_active := none }

/-- Crew with a commander but no member above five years of experience;
one member is also inactive. -/
def crew_rookie : List CrewMember :=
  [ { member_id := "Person020"
      name := "Dallas Arthur"
      rank := Rank.commander
      age := 45
      specialization := "Command"
      years_experience := 3
      is_active := true },
    { member_id := "Person021"
      name := "Brett Samuel"
      rank := Rank.officer
      age := 35
      specialization := "Engineering"
      years_experience := 2
      is_active := true },
    { member_id := "Person022"
      name := "Parker Dennis"
      rank := Rank.officer
      age := 39
      specialization := "Maintenance"
      years_experience := 4
      is_active := false } ]

/-- A SpaceMission input with valid fields where the long-mission
experience rule is the first failing rule and the all-active rule would
also fail. -/
def mission_input_rookie : SpaceMissionInput :=
  { mission_id := "M2030MARS"
    mission_name := "Mars Colony Establishment"
    destination := "Mars"
    lauch_date := none
    duration_days := 900
    crew := crew_rookie
    mission_status := none
    budget_millions := 2500 }

/-! ### Helper lemmas -/

/-- The field layer of SpaceStation accepts exactly the valid inputs. -/
theorem station_fieldCheck_eq_none_iff (i : SpaceStationInput) :
    SpaceStation.fieldCheck i = none ↔ i.Valid := by
  unfold SpaceStation.fieldCheck SpaceStationInput.Valid
  split_ifs <;> simp_all

/-- The field layer of AlienContact accepts exactly the valid inputs. -/
theorem contact_fieldCheck_eq_none_iff (i : AlienContactInput) :
    AlienContact.fieldCheck i = none ↔ i.Valid := by
  unfold AlienContact.fieldCheck AlienContactInput.Valid
  split_ifs <;> simp_all

/-- The field layer of CrewMember accepts exactly the valid inputs. -/
theorem member_fieldCheck_eq_none_iff (i : CrewMemberInput) :
    CrewMember.fieldCheck i = none ↔ i.Valid := by
  unfold CrewMember.fieldCheck CrewMemberInput.Valid
  split_ifs <;> simp_all

/-- The field layer of SpaceMission accepts exactly the valid inputs. -/
theorem mission_fieldCheck_eq_none_iff (i : SpaceMissionInput) :
    SpaceMission.fieldCheck i = none ↔ i.Valid := by
  unfold SpaceMission.fieldCheck SpaceMissionInput.Valid
  split_ifs <;> simp_all

/-- check_model of AlienContact succeeds exactly when all four cross-field
rules hold. -/
theorem contact_check_model_eq_none_iff (c : AlienContact) :
    c.check_model = none ↔ c.RulesOK := by
  constructor
  · intro h
    unfold AlienContact.check_model at h
    split_ifs at h with h1 h2 h3 h4
    all_goals simp at h
    push_neg at h1 h2 h3 h4
    exact ⟨⟨h1.1, h1.2⟩, fun hp => by simpa using h2 hp, h3, h4⟩
  · rintro ⟨⟨hlen, htake⟩, hphys, htele, hsig⟩
    have n1 : ¬(c.contact_id.length < 2 ∨ c.contact_id.take 2 ≠ "AC") := by
      push_neg
      exact ⟨hlen, htake⟩
    have n2 : ¬(c.contact_type = ContactType.physical ∧ ¬ c.is_verified) := by
      rintro ⟨hp, hv⟩
      exact hv (hphys hp)
    have n3 : ¬(c.contact_type = ContactType.telepathic ∧ c.witness_count < 3) := by
      rintro ⟨ht, hw⟩
      have := htele ht
      omega
    have n4 : ¬(c.signal_strength > 7 ∧ c.message_received = none) := by
      rintro ⟨h7, hn⟩
      exact hsig h7 hn
    unfold AlienContact.check_model
    rw [if_neg n1, if_neg n2, if_neg n3, if_neg n4]

/-- check_model of SpaceMission succeeds exactly when all four cross-field
rules hold. -/
theorem mission_check_model_eq_none_iff (m : SpaceMission) :
    m.check_model = none ↔ m.RulesOK := by
  constructor
  · intro h
    unfold SpaceMission.check_model at h
    split_ifs at h with h1 h2 h3 h4
    all_goals simp at h
    push_neg at h1 h3
    refine ⟨⟨h1.1, h1.2⟩, by simpa using h2, ?_, by simpa using h4⟩
    intro hd
    simpa using h3 hd
  · rintro ⟨⟨hlen, htake⟩, hrank, hexp, hact⟩
    have n1 : ¬(m.mission_id.length = 0 ∨ m.mission_id.take 1 ≠ "M") := by
      push_neg
      exact ⟨hlen, htake⟩
    have n2 : ¬(not_min_rank m.crew = true) := by
      simp [hrank]
    have n3 : ¬(m.duration_days > 365 ∧ ¬ experience_crew m.crew) := by
      rintro ⟨hd, he⟩
      exact he (hexp hd)
    have n4 : ¬¬(active_crew m.crew = true) := by
      simp [hact]
    unfold SpaceMission.check_model
    rw [if_neg n1, if_neg n2, if_neg n3, if_neg n4]

/-- The counting loop of not_min_rank adds the number of commanders and
the number of captains to its accumulator. -/
theorem not_min_rank_loop_eq (crew : List CrewMember) (a b : Int) :
    not_min_rank_loop crew (a, b) =
      (a + ((crew.countP fun p => decide (p.rank = Rank.commander)) : Int),
       b + ((crew.countP fun p => decide (p.rank = Rank.captain)) : Int)) := by
  induction crew generalizing a b with
  | nil => simp [not_min_rank_loop]
  | cons person rest ih =>
    by_cases hc : person.rank = Rank.commander
    · have hcap : ¬ person.rank = Rank.captain := by simp [hc]
      simp [not_min_rank_loop, hc, hcap, ih, List.countP_cons]
      ring
    · by_cases hk : person.rank = Rank.captain
      · simp [not_min_rank_loop, hc, hk, ih, List.countP_cons]
        ring
      · simp [not_min_rank_loop, hc, hk, ih, List.countP_cons]

/-- not_min_rank is false exactly when some member is a commander or a
captain. -/
theorem not_min_rank_eq_false_iff (crew : List CrewMember) :
    not_min_rank crew = false ↔
      ∃ p ∈ crew, p.rank = Rank.commander ∨ p.rank = Rank.captain := by
  unfold not_min_rank
  rw [not_min_rank_loop_eq]
  simp only [zero_add, decide_eq_false_iff_not, not_and_or, Int.natCast_eq_zero]
  constructor
  · intro h
    rcases h with h | h
    · obtain ⟨p, hp, hpr⟩ := List.countP_pos_iff.mp (Nat.pos_of_ne_zero h)
      exact ⟨p, hp, Or.inl (by simpa using hpr)⟩
    · obtain ⟨p, hp, hpr⟩ := List.countP_pos_iff.mp (Nat.pos_of_ne_zero h)
      exact ⟨p, hp, Or.inr (by simpa using hpr)⟩
  · rintro ⟨p, hp, hpr | hpr⟩
    · exact Or.inl (Nat.pos_iff_ne_zero.mp (List.countP_pos_iff.mpr ⟨p, hp, by simpa using hpr⟩))
    · exact Or.inr (Nat.pos_iff_ne_zero.mp (List.countP_pos_iff.mpr ⟨p, hp, by simpa using hpr⟩))

/-- not_min_rank is true exactly when no member is a commander or a
captain. -/
theorem not_min_rank_eq_true_iff (crew : List CrewMember) :
    not_min_rank crew = true ↔
      ∀ p ∈ crew, p.rank ≠ Rank.commander ∧ p.rank ≠ Rank.captain := by
  constructor
  · intro h p hp
    refine ⟨fun hc => ?_, fun hc => ?_⟩
    · have hf := (not_min_rank_eq_false_iff crew).mpr ⟨p, hp, Or.inl hc⟩
      rw [h] at hf
      cases hf
    · have hf := (not_min_rank_eq_false_iff crew).mpr ⟨p, hp, Or.inr hc⟩
      rw [h] at hf
      cases hf
  · intro h
    cases hb : not_min_rank crew
    · obtain ⟨p, hp, hpr⟩ := (not_min_rank_eq_false_iff crew).mp hb
      rcases hpr with hc | hc
      · exact absurd hc (h p hp).1
      · exact absurd hc (h p hp).2
    · rfl

/-- The counting loop of experience_crew adds the number of members with
more than five years of experience to its accumulator. -/
theorem experience_crew_loop_eq (crew : List CrewMember) (n : Int) :
    experience_crew_loop crew n =
      n + ((crew.countP fun p => decide (p.years_experience > 5)) : Int) := by
  induction crew generalizing n with
  | nil => simp [experience_crew_loop]
  | cons person rest ih =>
    by_cases h : person.years_experience > 5 <;>
      simp [experience_crew_loop, h, ih, List.countP_cons] <;> ring

/-- experience_crew is true exactly when the experienced-member count is
at least half the crew size under rational division. -/
theorem experience_crew_eq_true_iff (crew : List CrewMember) :
    experience_crew crew = true ↔
      (((crew.countP fun p => decide (p.years_experience > 5)) : ℚ) ≥
        (crew.length : ℚ) / 2) := by
  unfold experience_crew
  rw [experience_crew_loop_eq]
  simp only [zero_add, decide_eq_true_eq]
  push_cast
  rfl

/-- active_crew is true exactly when every member is active. -/
theorem active_crew_eq_true_iff (crew : List CrewMember) :
    active_crew crew = true ↔ ∀ p ∈ crew, p.is_active = true := by
  induction crew with
  | nil => simp [active_crew]
  | cons person rest ih =>
    by_cases h : person.is_active <;> simp [active_crew, h, ih]

/-! ### Claim theorems -/

/-- Claim C1: for every schema (Station, Contact, Mission, Crew-Member),
any record that construction returns satisfies every declared field
constraint and every cross-field rule of its schema; construction is
atomic, so no partially-valid record is ever produced. -/
theorem construction_returns_only_valid_records :
    (∀ now i r, SpaceStation.construct now i = .ok r → r.FieldsOK)
    ∧ (∀ now i r, AlienContact.construct now i = .ok r → r.FieldsOK ∧ r.RulesOK)
    ∧ (∀ now i r, SpaceMission.construct now i = .ok r → r.FieldsOK ∧ r.RulesOK)
    ∧ (∀ i r, CrewMember.construct i = .ok r → r.FieldsOK) := by
  refine ⟨?_, ?_, ?_, ?_⟩
  · intro now i r h
    cases hfc : SpaceStation.fieldCheck i with
    | some f =>
      simp only [SpaceStation.construct, hfc] at h
      exact Except.noConfusion h
    | none =>
      simp only [SpaceStation.construct, hfc, Except.ok.injEq] at h
      subst h
      have hv := (station_fieldCheck_eq_none_iff i).mp hfc
      simpa [SpaceStation.assemble] using hv
  · intro now i r h
    cases hfc : AlienContact.fieldCheck i with
    | some f =>
      simp only [AlienContact.construct, hfc] at h
      exact Except.noConfusion h
    | none =>
      simp only [AlienContact.construct, hfc] at h
      cases hcm : (AlienContact.assemble now i).check_model with
      | some msg =>
        rw [hcm] at h
        simp at h
      | none =>
        rw [hcm] at h
        simp only [Except.ok.injEq] at h
        subst h
        refine ⟨?_, (contact_check_model_eq_none_iff _).mp hcm⟩
        have hv := (contact_fieldCheck_eq_none_iff i).mp hfc
        simpa [AlienContact.assemble] using hv
  · intro now i r h
    cases hfc : SpaceMission.fieldCheck i with
    | some f =>
      simp only [SpaceMission.construct, hfc] at h
      exact Except.noConfusion h
    | none =>
      simp only [SpaceMission.construct, hfc] at h
      cases hcm : (SpaceMission.assemble now i).check_model with
      | some msg =>
        rw [hcm] at h
        simp at h
      | none =>
        rw [hcm] at h
        simp only [Except.ok.injEq] at h
        subst h
        refine ⟨?_, (mission_check_model_eq_none_iff _).mp hcm⟩
        have hv := (mission_fieldCheck_eq_none_iff i).mp hfc
        simpa [SpaceMission.assemble] using hv
  · intro i r h
    cases hfc : CrewMember.fieldCheck i with
    | some f =>
      simp only [CrewMember.construct, hfc] at h
      exact Except.noConfusion h
    | none =>
      simp only [CrewMember.construct, hfc, Except.ok.injEq] at h
      subst h
      have hv := (member_fieldCheck_eq_none_iff i).mp hfc
      simpa [CrewMember.assemble] using hv

/-- Claim C7: the minute-to-phrase formatter maps 45, 60, 90, 120 and 1
to the expected phrases. -/
theorem convert_duration_examples :
    convert_duration 45 = "45 minutes"
    ∧ convert_duration 60 = "1 hour"
    ∧ convert_duration 90 = "1 hour 30 minutes"
    ∧ convert_duration 120 = "2 hours"
    ∧ convert_duration 1 = "1 minute" := by
  refine ⟨?_, ?_, ?_, ?_, ?_⟩ <;> decide

/-- Claim C9: for every valid Station record, the status line printed by
display_station reads Status: Non Operational when is_operational is true
and Status: Operational when it is false. -/
theorem display_station_status_inverted (s : SpaceStation) (h : s.FieldsOK) :
    (s.is_operational = true → display_station_status s = "Status: Non Operational")
    ∧ (s.is_operational = false → display_station_status s = "Status: Operational") := by
  constructor <;> intro hb <;> simp [display_station_status, hb]

/-- Claim C10: the minute-to-phrase formatter applied to 0 returns the
empty string. -/
theorem convert_duration_zero : convert_duration 0 = "" := by
  decide

/-- Claim C2: for every input in which every field value lies within its
declared bounds and every cross-field rule is satisfied, construction
succeeds and the returned record's fields equal the supplied inputs, with
declared defaults filled in for omitted fields. -/
theorem valid_input_construction_succeeds :
    (∀ now (i : SpaceStationInput), i.Valid →
      SpaceStation.construct now i = Except.ok
        { station_id := i.station_id
          name := i.name
          crew_size := i.crew_size
          power_level := i.power_level
          oxygen_level := i.oxygen_level
          last_maintenance := i.last_maintenance.getD now
          is_operational := i.is_operational.getD true
          notes := i.notes })
    ∧ (∀ now (i : AlienContactInput), i.Valid →
        (AlienContact.assemble now i).RulesOK →
        AlienContact.construct now i = Except.ok
          { contact_id := i.contact_id
            timestamp := i.timestamp.getD now
            location := i.location
            contact_type := i.contact_type
            signal_strength := i.signal_strength
            duration_minutes := i.duration_minutes
            witness_count := i.witness_count
            message_received := i.message_received
            is_verified := i.is_verified.getD false })
    ∧ (∀ now (i : SpaceMissionInput), i.Valid →
        (SpaceMission.assemble now i).RulesOK →
        SpaceMission.construct now i = Except.ok
          { mission_id := i.mission_id
            mission_name := i.mission_name
            destination := i.destination
            lauch_date := i.lauch_date.getD now
            duration_days := i.duration_days
            crew := i.crew
            mission_status := i.mission_status.getD "planned"
            budget_millions := i.budget_millions })
    ∧ (∀ (i : CrewMemberInput), i.Valid →
        CrewMember.construct i = Except.ok
          { member_id := i.member_id
            name := i.name
            rank := i.rank
            age := i.age
            specialization := i.specialization
            years_experience := i.years_experience
            is_active := i.is_active.getD true }) := by
  refine ⟨?_, ?_, ?_, ?_⟩
  · intro now i hv
    have hfc := (station_fieldCheck_eq_none_iff i).mpr hv
    simp only [SpaceStation.construct, hfc]
    rfl
  · intro now i hv hr
    have hfc := (contact_fieldCheck_eq_none_iff i).mpr hv
    have hcm := (contact_check_model_eq_none_iff (AlienContact.assemble now i)).mpr hr
    simp only [AlienContact.construct, hfc, hcm]
    rfl
  · intro now i hv hr
    have hfc := (mission_fieldCheck_eq_none_iff i).mpr hv
    have hcm := (mission_check_model_eq_none_iff (SpaceMission.assemble now i)).mpr hr
    simp only [SpaceMission.construct, hfc, hcm]
    rfl
  · intro i hv
    have hfc := (member_fieldCheck_eq_none_iff i).mpr hv
    simp only [CrewMember.construct, hfc]
    rfl

/-- Claim C3: when exactly one field violates its declared constraint,
construction fails with a field-constraint violation naming that field,
regardless of any cross-field rule the assembled record would violate,
because the cross-field chain runs only after all field constraints
pass. -/
theorem single_field_violation_reported :
    (∀ now (i : AlienContactInput) (f : AlienContactField),
      ¬ i.fieldOK f → (∀ g, g ≠ f → i.fieldOK g) →
      AlienContact.construct now i =
        .error (.fieldConstraintViolation f.fieldName))
    ∧ (∀ now (i : SpaceMissionInput) (f : SpaceMissionField),
      ¬ i.fieldOK f → (∀ g, g ≠ f → i.fieldOK g) →
      SpaceMission.construct now i =
        .error (.fieldConstraintViolation f.fieldName)) := by
  constructor
  · intro now i f hbad hok
    cases f with
    | contact_id =>
      simp only [AlienContactInput.fieldOK] at hbad
      simp [AlienContact.construct, AlienContact.fieldCheck, AlienContactField.fieldName, hbad]
    | location =>
      have h1 := hok .contact_id (by decide)
      simp only [AlienContactInput.fieldOK] at h1 hbad
      simp [AlienContact.construct, AlienContact.fieldCheck, AlienContactField.fieldName, h1, hbad]
    | signal_strength =>
      have h1 := hok .contact_id (by decide)
      have h2 := hok .location (by decide)
      simp only [AlienContactInput.fieldOK] at h1 h2 hbad
      simp [AlienContact.construct, AlienContact.fieldCheck, AlienContactField.fieldName,
        h1, h2, hbad]
    | duration_minutes =>
      have h1 := hok .contact_id (by decide)
      have h2 := hok .location (by decide)
      have h3 := hok .signal_strength (by decide)
      simp only [AlienContactInput.fieldOK] at h1 h2 h3 hbad
      simp [AlienContact.construct, AlienContact.fieldCheck, AlienContactField.fieldName,
        h1, h2, h3, hbad]
    | witness_count =>
      have h1 := hok .contact_id (by decide)
      have h2 := hok .location (by decide)
      have h3 := hok .signal_strength (by decide)
      have h4 := hok .duration_minutes (by decide)
      simp only [AlienContactInput.fieldOK] at h1 h2 h3 h4 hbad
      simp [AlienContact.construct, AlienContact.fieldCheck, AlienContactField.fieldName,
        h1, h2, h3, h4, hbad]
  · intro now i f hbad hok
    cases f with
    | mission_id =>
      simp only [SpaceMissionInput.fieldOK] at hbad
      simp [SpaceMission.construct, SpaceMission.fieldCheck, SpaceMissionField.fieldName, hbad]
    | mission_name =>
      have h1 := hok .mission_id (by decide)
      simp only [SpaceMissionInput.fieldOK] at h1 hbad
      simp [SpaceMission.construct, SpaceMission.fieldCheck, SpaceMissionField.fieldName,
        h1, hbad]
    | destination =>
      have h1 := hok .mission_id (by decide)
      have h2 := hok .mission_name (by decide)
      simp only [SpaceMissionInput.fieldOK] at h1 h2 hbad
      simp [SpaceMission.construct, SpaceMission.fieldCheck, SpaceMissionField.fieldName,
        h1, h2, hbad]
    | duration_days =>
      have h1 := hok .mission_id (by decide)
      have h2 := hok .mission_name (by decide)
      have h3 := hok .destination (by decide)
      simp only [SpaceMissionInput.fieldOK] at h1 h2 h3 hbad
      simp [SpaceMission.construct, SpaceMission.fieldCheck, SpaceMissionField.fieldName,
        h1, h2, h3, hbad]
    | crew =>
      have h1 := hok .mission_id (by decide)
      have h2 := hok .mission_name (by decide)
      have h3 := hok .destination (by decide)
      have h4 := hok .duration_days (by decide)
      simp only [SpaceMissionInput.fieldOK] at h1 h2 h3 h4 hbad
      simp [SpaceMission.construct, SpaceMission.fieldCheck, SpaceMissionField.fieldName,
        h1, h2, h3, h4, hbad]
    | budget_millions =>
      have h1 := hok .mission_id (by decide)
      have h2 := hok .mission_name (by decide)
      have h3 := hok .destination (by decide)
      have h4 := hok .duration_days (by decide)
      have h5 := hok .crew (by decide)
      simp only [SpaceMissionInput.fieldOK] at h1 h2 h3 h4 h5 hbad
      simp [SpaceMission.construct, SpaceMission.fieldCheck, SpaceMissionField.fieldName,
        h1, h2, h3, h4, h5, hbad]

/-- Claim C4: when fields are individually valid and rule k is the first
failing cross-field rule in the schema's order, construction fails with
exactly rule k's message, even when later rules would also fail. -/
theorem first_failing_rule_message_reported :
    (∀ now (i : AlienContactInput) (k : Fin 4), i.Valid →
      AlienContact.ruleFails (AlienContact.assemble now i) k →
      (∀ j, j < k → ¬ AlienContact.ruleFails (AlienContact.assemble now i) j) →
      AlienContact.construct now i =
        .error (.crossFieldViolation (AlienContact.ruleMsg k)))
    ∧ (∀ now (i : SpaceMissionInput) (k : Fin 4), i.Valid →
      SpaceMission.ruleFails (SpaceMission.assemble now i) k →
      (∀ j, j < k → ¬ SpaceMission.ruleFails (SpaceMission.assemble now i) j) →
      SpaceMission.construct now i =
        .error (.crossFieldViolation (SpaceMission.ruleMsg k))) := by
  constructor
  · intro now i k hv hk hj
    have hfc := (contact_fieldCheck_eq_none_iff i).mpr hv
    fin_cases k
    · simp only [AlienContact.ruleFails, Bool.not_eq_true, gt_iff_lt] at hk
      simp [AlienContact.construct, hfc, AlienContact.check_model, AlienContact.ruleMsg, hk]
    · have n0 := hj 0 (by decide)
      simp only [AlienContact.ruleFails, Bool.not_eq_true, gt_iff_lt] at hk n0
      simp [AlienContact.construct, hfc, AlienContact.check_model, AlienContact.ruleMsg,
        hk, n0]
    · have n0 := hj 0 (by decide)
      have n1 := hj 1 (by decide)
      simp only [AlienContact.ruleFails, Bool.not_eq_true, gt_iff_lt] at hk n0 n1
      simp [AlienContact.construct, hfc, AlienContact.check_model, AlienContact.ruleMsg,
        hk, n0, n1]
    · have n0 := hj 0 (by decide)
      have n1 := hj 1 (by decide)
      have n2 := hj 2 (by decide)
      simp only [AlienContact.ruleFails, Bool.not_eq_true, gt_iff_lt] at hk n0 n1 n2
      simp [AlienContact.construct, hfc, AlienContact.check_model, AlienContact.ruleMsg,
        hk, n0, n1, n2]
  · intro now i k hv hk hj
    have hfc := (mission_fieldCheck_eq_none_iff i).mpr hv
    fin_cases k
    · simp only [SpaceMission.ruleFails, Bool.not_eq_true, gt_iff_lt] at hk
      simp [SpaceMission.construct, hfc, SpaceMission.check_model, SpaceMission.ruleMsg, hk]
    · have n0 := hj 0 (by decide)
      simp only [SpaceMission.ruleFails, Bool.not_eq_true, gt_iff_lt] at hk n0
      simp [SpaceMission.construct, hfc, SpaceMission.check_model, SpaceMission.ruleMsg,
        hk, n0]
    · have n0 := hj 0 (by decide)
      have n1 := hj 1 (by decide)
      simp only [SpaceMission.ruleFails, Bool.not_eq_true, gt_iff_lt] at hk n0 n1
      simp [SpaceMission.construct, hfc, SpaceMission.check_model, SpaceMission.ruleMsg,
        hk, n0, n1]
    · have n0 := hj 0 (by decide)
      have n1 := hj 1 (by decide)
      have n2 := hj 2 (by decide)
      simp only [SpaceMission.ruleFails, Bool.not_eq_true, gt_iff_lt] at hk n0 n1 n2
      simp [SpaceMission.construct, hfc, SpaceMission.check_model, SpaceMission.ruleMsg,
        hk, n0, n1, n2]

/-- Claim C5: experience_crew is true iff the count of members with more
than five years of experience is at least half the crew size under
real-number division; on a crew of three it is false with exactly one
experienced member and true with exactly two. -/
theorem experience_crew_majority :
    (∀ crew : List CrewMember,
      experience_crew crew = true ↔
        (((crew.countP fun p => decide (p.years_experience > 5)) : ℚ) ≥
          (crew.length : ℚ) / 2))
    ∧ (∀ crew : List CrewMember, crew.length = 3 →
        (crew.countP fun p => decide (p.years_experience > 5)) = 1 →
        experience_crew crew = false)
    ∧ (∀ crew : List CrewMember, crew.length = 3 →
        (crew.countP fun p => decide (p.years_experience > 5)) = 2 →
        experience_crew crew = true) := by
  refine ⟨experience_crew_eq_true_iff, ?_, ?_⟩
  · intro crew hlen hcount
    rw [← Bool.not_eq_true, experience_crew_eq_true_iff, hlen, hcount]
    norm_num
  · intro crew hlen hcount
    rw [experience_crew_eq_true_iff, hlen, hcount]
    norm_num

/-- Claim C6: the command-rank predicate holds iff some member is a
commander or a captain; a Mission whose fields are valid, whose id starts
with M and whose crew has neither rank fails with the fixed message. -/
theorem command_rank_requirement :
    (∀ crew : List CrewMember,
      not_min_rank crew = false ↔
        ∃ p ∈ crew, p.rank = Rank.commander ∨ p.rank = Rank.captain)
    ∧ (∀ now (i : SpaceMissionInput), i.Valid →
        i.mission_id.take 1 = "M" →
        (∀ p ∈ i.crew, p.rank ≠ Rank.commander ∧ p.rank ≠ Rank.captain) →
        SpaceMission.construct now i =
          .error (.crossFieldViolation "Must have at least one Commander or Captain")) := by
  refine ⟨not_min_rank_eq_false_iff, ?_⟩
  intro now i hv htake hnone
  have hfc := (mission_fieldCheck_eq_none_iff i).mpr hv
  have hlen : i.mission_id.length ≠ 0 := by
    have := hv.1.1
    omega
  have hrank : not_min_rank i.crew = true := (not_min_rank_eq_true_iff i.crew).mpr hnone
  simp [SpaceMission.construct, hfc, SpaceMission.check_model, SpaceMission.assemble,
    hlen, htake, hrank]

/-- Claim C8: for every duration from 1 to 1440 minutes, the formatter
emits the hour phrase iff duration is at least 60 and the minute phrase
iff duration is not a multiple of 60, and each unit word is singular
exactly when its count equals 1 and pluralized otherwise. -/
theorem convert_duration_phrase_structure (d : Int) (hlo : 1 ≤ d) (hhi : d ≤ 1440) :
    convert_duration d = duration_phrase_from_spec d := by
  unfold convert_duration duration_phrase_from_spec
  by_cases h60 : d ≥ 60
  · by_cases h120 : d ≥ 120
    · have hdiv : ¬ d / 60 = 1 := by omega
      by_cases hm : d % 60 = 0
      · simp [h60, h120, hm, hdiv, String.append_assoc]
      · by_cases hm1 : d % 60 = 1
        · simp [h60, h120, hm, hm1, hdiv, String.append_assoc]
        · simp [h60, h120, hm, hm1, hdiv, String.append_assoc]
    · have hdiv : d / 60 = 1 := by omega
      by_cases hm : d % 60 = 0
      · simp [h60, h120, hm, hdiv, String.append_assoc]
      · by_cases hm1 : d % 60 = 1
        · simp [h60, h120, hm, hm1, hdiv, String.append_assoc]
        · simp [h60, h120, hm, hm1, hdiv, String.append_assoc]
  · have hm : ¬ d % 60 = 0 := by omega
    by_cases hm1 : d % 60 = 1
    · simp [h60, hm, hm1]
    · simp [h60, hm, hm1]

/-! ### Witnesses at concrete inputs -/

/-- Witness for C1 at the demonstration inputs of the three mains. -/
theorem construction_returns_only_valid_records_witness :
    (SpaceStation.assemble 0 station_input_ok).FieldsOK
    ∧ ((AlienContact.assemble 0 contact_input_ok).FieldsOK
        ∧ (AlienContact.assemble 0 contact_input_ok).RulesOK)
    ∧ ((SpaceMission.assemble 0 mission_input_ok).FieldsOK
        ∧ (SpaceMission.assemble 0 mission_input_ok).RulesOK)
    ∧ (CrewMember.assemble member_input_ok).FieldsOK := by
  refine ⟨construction_returns_only_valid_records.1 0 station_input_ok _ rfl,
    construction_returns_only_valid_records.2.1 0 contact_input_ok _ rfl,
    construction_returns_only_valid_records.2.2.1 0 mission_input_ok _ ?_,
    construction_returns_only_valid_records.2.2.2 member_input_ok _ rfl⟩
  have hexp : experience_crew crew_ok = true := by
    unfold experience_crew
    norm_num [experience_crew_loop, crew_ok]
  have hcm : (SpaceMission.assemble 0 mission_input_ok).check_model = none := by
    rw [mission_check_model_eq_none_iff]
    exact ⟨⟨by decide, by decide⟩, by decide, fun h => hexp, by decide⟩
  have hfc : SpaceMission.fieldCheck mission_input_ok = none := by decide
  simp only [SpaceMission.construct, hfc, hcm]

/-- Witness for C2 at the demonstration inputs. -/
theorem valid_input_construction_succeeds_witness :
    SpaceStation.construct 0 station_input_ok = Except.ok
      { station_id := "ISS001"
        name := "International Space Station"
        crew_size := 6
        power_level := 85
        oxygen_level := 92
        last_maintenance := 0
        is_operational := true
        notes := none }
    ∧ AlienContact.construct 0 contact_input_ok = Except.ok
      { contact_id := "AC2024001"
        timestamp := 0
        location := "Area 51, Nevada"
        contact_type := ContactType.radio
        signal_strength := 8
        duration_minutes := 45
        witness_count := 5
        message_received := some "Greetings from Zeta Reticuli"
        is_verified := false }
    ∧ SpaceMission.construct 0 mission_input_ok = Except.ok
      { mission_id := "M2024MARS"
        mission_name := "Mars Colony Establishment"
        destination := "Mars"
        lauch_date := 0
        duration_days := 900
        crew := crew_ok
        mission_status := "planned"
        budget_millions := 2500 }
    ∧ CrewMember.construct member_input_ok = Except.ok
      { member_id := "Person006"
        name := "John Smith"
        rank := Rank.lieutenant
        age := 63
        specialization := "Navigation"
        years_experience := 17
        is_active := true } := by
  have hexp : experience_crew crew_ok = true := by
    unfold experience_crew
    norm_num [experience_crew_loop, crew_ok]
  exact ⟨valid_input_construction_succeeds.1 0 station_input_ok (by decide),
    valid_input_construction_succeeds.2.1 0 contact_input_ok (by decide) (by decide),
    valid_input_construction_succeeds.2.2.1 0 mission_input_ok (by decide)
      ⟨⟨by decide, by decide⟩, by decide, fun _h => hexp, by decide⟩,
    valid_input_construction_succeeds.2.2.2 member_input_ok (by decide)⟩

/-- Witness for C3: a too-short contact id and a too-short mission id are
reported as field violations even though the assembled records would also
break the first cross-field rule. -/
theorem single_field_violation_reported_witness :
    AlienContact.construct 0 contact_input_badid =
      .error (.fieldConstraintViolation "contact_id")
    ∧ SpaceMission.construct 0 mission_input_badid =
      .error (.fieldConstraintViolation "mission_id") := by
  constructor
  · refine single_field_violation_reported.1 0 contact_input_badid .contact_id (by decide) ?_
    intro g hg
    cases g
    · exact absurd rfl hg
    all_goals
      simp only [AlienContactInput.fieldOK]
      decide
  · refine single_field_violation_reported.2 0 mission_input_badid .mission_id (by decide) ?_
    intro g hg
    cases g
    · exact absurd rfl hg
    all_goals
      simp only [SpaceMissionInput.fieldOK]
      decide

/-- Witness for C4: the telepathic rule is the first failing rule of the
second ex1 demonstration contact even though the strong-signal rule would
also fail, and the experience rule is the first failing rule of a rookie
mission even though the all-active rule would also fail. -/
theorem first_failing_rule_message_reported_witness :
    AlienContact.construct 0 contact_input_tele =
      .error (.crossFieldViolation "telepathic contact requires at least 3 witnesses")
    ∧ SpaceMission.construct 0 mission_input_rookie =
      .error (.crossFieldViolation
        "Long missions (> 365 days) need 50% experienced crew (5+ years)") := by
  have hexp0 : experience_crew crew_rookie = false := by
    unfold experience_crew
    norm_num [experience_crew_loop, crew_rookie]
  constructor
  · refine first_failing_rule_message_reported.1 0 contact_input_tele 2 (by decide) ?_ ?_
    · simp only [AlienContact.ruleFails]
      decide
    · intro j hj
      fin_cases j
      · simp only [AlienContact.ruleFails]
        decide
      · simp only [AlienContact.ruleFails]
        decide
      · exact absurd hj (by decide)
      · exact absurd hj (by decide)
  · refine first_failing_rule_message_reported.2 0 mission_input_rookie 2 (by decide) ?_ ?_
    · simp only [SpaceMission.ruleFails]
      refine ⟨by decide, ?_⟩
      simp [SpaceMission.assemble, mission_input_rookie, hexp0]
    · intro j hj
      fin_cases j
      · simp only [SpaceMission.ruleFails]
        decide
      · simp only [SpaceMission.ruleFails]
        decide
      · exact absurd hj (by decide)
      · exact absurd hj (by decide)

/-- Witness for C5 at two concrete crews of three. -/
theorem experience_crew_majority_witness :
    (crew_one_exp.length = 3
      ∧ (crew_one_exp.countP fun p => decide (p.years_experience > 5)) = 1
      ∧ experience_crew crew_one_exp = false)
    ∧ (crew_nocmd.length = 3
      ∧ (crew_nocmd.countP fun p => decide (p.years_experience > 5)) = 2
      ∧ experience_crew crew_nocmd = true) :=
  ⟨⟨by decide, by decide, experience_crew_majority.2.1 crew_one_exp (by decide) (by decide)⟩,
   ⟨by decide, by decide, experience_crew_majority.2.2 crew_nocmd (by decide) (by decide)⟩⟩

/-- Witness for C6 at the second ex2 demonstration mission. -/
theorem command_rank_requirement_witness :
    SpaceMission.construct 0 mission_input_nocmd =
      .error (.crossFieldViolation "Must have at least one Commander or Captain") :=
  command_rank_requirement.2 0 mission_input_nocmd (by decide) (by decide) (by decide)

/-- Witness for C8 at 90 minutes. -/
theorem convert_duration_phrase_structure_witness :
    ((1:Int) ≤ 90 ∧ (90:Int) ≤ 1440)
    ∧ convert_duration 90 = duration_phrase_from_spec 90 :=
  ⟨⟨by decide, by decide⟩, convert_duration_phrase_structure 90 (by decide) (by decide)⟩

/-- Witness for C9 at the two demonstration stations. -/
theorem display_station_status_inverted_witness :
    display_station_status (SpaceStation.assemble 0 station_input_ok) =
      "Status: Non Operational"
    ∧ display_station_status (SpaceStation.assemble 0 station_input_off) =
      "Status: Operational" :=
  ⟨(display_station_status_inverted (SpaceStation.assemble 0 station_input_ok)
      (by decide)).1 (by decide),
   (display_station_status_inverted (SpaceStation.assemble 0 station_input_off)
      (by decide)).2 (by decide)⟩
